import Mathlib

/-!
Shallow embedding of the mele-odoo-adapter event pipeline.

Sources embedded (file → Lean definitions):
- src/domain/entities/integration_event.py → EventType, EntityType, SourceSystem,
  Payload, Context, IntegrationEvent
- src/infrastructure/persistence/event_repository_impl.py → Row, save_event,
  mark_event_as_processed, mark_event_as_failed, get_failed_events, cleanup_old_events
- src/infrastructure/odoo/odoo_client.py → OdooState, create_record, update_record,
  delete_record, find_by_external_id, set_external_id
- src/domain/services/integration_service.py → map_product_values and friends,
  handle_create_event/handle_update_event/handle_delete_event/handle_sync_event,
  handle_event_by_type, process_integration_event
- src/application/handlers/sync_handler.py → handle_retry_failed_events

Modelling conventions:
- datetimes are modelled as `Nat` ticks; SQLite compares the TEXT isoformat
  column lexicographically, which agrees with chronological order, so `<` on
  `Nat` is a faithful rendering of `timestamp < ?`.
- Python dicts of payload values are association lists with first-match lookup.
- Python numeric values (int/float) are modelled by `Int`; none of the verified
  properties depends on fractional values.  Python `float(s)` on a string is
  approximated by integer parsing; no verified property feeds string numerics.
- JSON (de)serialization of source_system/payload/context columns is modelled
  as the identity round trip, so the columns hold the structured values.
- The external Odoo server reached over XML-RPC is modelled as an in-memory
  record store: `create` appends a fresh-id record, `write`/`unlink` mutate it,
  `search`/`search_read` filter by field equality.  The `complete_name` of an
  `ir.model.data` row is `module ++ "." ++ name`, exactly the convention that
  `set_external_id` itself encodes by splitting an external id at the first
  dot into module and name.  Creates may be made to fail per model through
  `OdooState.failCreate`, modelling connector-side rejections.
-/

/-- EventType enum from integration_event.py. -/
inductive EventType where
  | create
  | update
  | delete
  | sync
deriving DecidableEq, Repr

/-- EntityType enum from integration_event.py. -/
inductive EntityType where
  | product
  | user
  | store
  | invoice
  | shift
  | zetaReport
deriving DecidableEq, Repr

/-- Payload values (Python dict values).  Numbers are modelled by `Int`. -/
inductive PVal where
  | str (s : String)
  | num (n : Int)
  | boolv (b : Bool)
deriving DecidableEq, Repr

/-- A Python dict of payload fields: association list, first match wins. -/
abbrev Dict := List (String × PVal)

/-- `d.get(k)` / `k in d` lookup on a payload dict. -/
def Dict.get? (d : Dict) (k : String) : Option PVal :=
  (List.find? (fun p => p.1 == k) d).map (fun p => p.2)

/-- SourceSystem dataclass. -/
structure SourceSystem where
  erp_name : String
  instance_id : String
deriving DecidableEq, Repr

/-- Payload dataclass (`data` is itself Optional in the source). -/
structure Payload where
  data : Option Dict := none
deriving DecidableEq, Repr

/-- Context dataclass; the header is irrelevant to the verified properties. -/
structure Context where
  retry_count : Nat := 0
deriving DecidableEq, Repr

/-- IntegrationEvent dataclass; `timestamp` is a tick count. -/
structure IntegrationEvent where
  event_type : EventType
  entity_type : EntityType
  event_id : String
  timestamp : Nat
  source_system : Option SourceSystem := none
  payload : Option Payload := none
  context : Option Context := none
deriving DecidableEq, Repr

/-! ## Event store (event_repository_impl.py over SQLite) -/

/-- One row of the `integration_events` table.  The rowid/autoincrement `id`
column is represented by list position (rows are kept in insertion order). -/
structure Row where
  event_id : String
  event_type : EventType
  entity_type : EntityType
  timestamp : Nat
  source_system : Option SourceSystem
  payload : Option Payload
  context : Option Context
  status : String
  error_message : Option String
  created_at : Nat
  updated_at : Nat
deriving DecidableEq, Repr

/-- The row written for an envelope by `save_event`: status forced to
`'pending'`, `error_message` not in the INSERT column list (so NULL),
`created_at`/`updated_at` = now. -/
def eventRow (e : IntegrationEvent) (now : Nat) : Row :=
  { event_id := e.event_id
    event_type := e.event_type
    entity_type := e.entity_type
    timestamp := e.timestamp
    source_system := e.source_system
    payload := e.payload
    context := e.context
    status := "pending"
    error_message := none
    created_at := now
    updated_at := now }

/-- `save_event`: `INSERT OR REPLACE` keyed by the UNIQUE `event_id` column.
REPLACE deletes any conflicting row and inserts the new row with a fresh
rowid, i.e. at the end.  Returns True on success. -/
def save_event (e : IntegrationEvent) (now : Nat) (db : List Row) :
    Bool × List Row :=
  (true, db.filter (fun r => !(r.event_id == e.event_id)) ++ [eventRow e now])

/-- `_update_event_status` as used by `mark_event_as_processed`: the UPDATE
statement has three placeholders and three bound parameters, so it executes. -/
def mark_event_as_processed (eid : String) (now : Nat) (db : List Row) :
    Bool × List Row :=
  (true, db.map (fun r =>
    if r.event_id == eid then { r with status := "processed", updated_at := now } else r))

/-- Number of `?` placeholders in the `mark_event_as_failed` UPDATE statement:
`SET status = 'failed', error_message = ?, updated_at = ? WHERE event_id = ?`. -/
def markFailedSqlPlaceholders : Nat := 3

/-- The parameter tuple passed to that statement in the source:
`('failed', error_message, datetime.now().isoformat(), event_id)` — four
values (the string `'failed'` is bound although the SQL text already fixes
the status as a literal). -/
def markFailedSqlParams (msg : String) (now : Nat) (eid : String) : List String :=
  ["failed", msg, toString now, eid]

/-- `mark_event_as_failed`: sqlite3 raises `ProgrammingError` when the number
of bound parameters differs from the number of placeholders; the surrounding
`except` logs and returns False, leaving the database unchanged (no commit). -/
def mark_event_as_failed (eid msg : String) (now : Nat) (db : List Row) :
    Bool × List Row :=
  if (markFailedSqlParams msg now eid).length = markFailedSqlPlaceholders then
    (true, db.map (fun r =>
      if r.event_id == eid then
        { r with status := "failed", error_message := some msg, updated_at := now }
      else r))
  else
    (false, db)

/-- Predicate of the cleanup DELETE: `timestamp < ? AND status = 'processed'`. -/
def oldProcessed (cutoff : Nat) (r : Row) : Bool :=
  decide (r.timestamp < cutoff) && (r.status == "processed")

/-- `cleanup_old_events`: DELETE the matching rows and return the cursor's
rowcount (number of rows removed). -/
def cleanup_old_events (cutoff : Nat) (db : List Row) : Nat × List Row :=
  let remaining := db.filter (fun r => !(oldProcessed cutoff r))
  (db.length - remaining.length, remaining)

/-- `_row_to_event`: rebuild the envelope from a stored row (JSON round trip
modelled as identity). -/
def rowToEvent (r : Row) : IntegrationEvent :=
  { event_type := r.event_type
    entity_type := r.entity_type
    event_id := r.event_id
    timestamp := r.timestamp
    source_system := r.source_system
    payload := r.payload
    context := r.context }

/-- Insert one row into a timestamp-descending list (ORDER BY timestamp DESC). -/
def insertByTsDesc (r : Row) : List Row → List Row
  | [] => [r]
  | x :: xs =>
      if x.timestamp < r.timestamp then r :: x :: xs else x :: insertByTsDesc r xs

/-- Sort rows by timestamp descending. -/
def sortByTsDesc : List Row → List Row
  | [] => []
  | x :: xs => insertByTsDesc x (sortByTsDesc xs)

/-- `get_failed_events`: `WHERE status = 'failed' ORDER BY timestamp DESC
LIMIT ?`, each row turned back into an envelope. -/
def get_failed_events (db : List Row) (limit : Nat) : List IntegrationEvent :=
  ((sortByTsDesc (db.filter (fun r => r.status == "failed"))).take limit).map rowToEvent

/-! ## Target connector model (odoo_client.py against an Odoo server) -/

/-- One record stored on the Odoo server: model name, record id, field values. -/
structure ORec where
  model : String
  rid : Nat
  values : Dict
deriving DecidableEq, Repr

/-- The Odoo server state.  `recs` is kept in creation order (ascending ids,
the default search order).  `failCreate` lists the models on which the server
rejects `create` calls, modelling connector-side failures. -/
structure OdooState where
  nextId : Nat := 1
  recs : List ORec := []
  failCreate : List String := []
deriving DecidableEq, Repr

/-- The mutating XML-RPC calls issued to the connector; dispatch functions
also return the trace of these calls (reads are not traced). -/
inductive OdooCall where
  | createR (model : String) (values : Dict)
  | updateR (model : String) (rid : Nat) (values : Dict)
  | deleteR (model : String) (rid : Nat)
deriving DecidableEq, Repr

/-- OdooSyncResult dataclass (odoo_record.py); error_details omitted. -/
structure OdooSyncResult where
  success : Bool
  record_id : Option Nat := none
  message : Option String := none
deriving DecidableEq, Repr

/-- `create_record`: `execute_kw(model, 'create', [values])`; on success the
server assigns the next id and stores the record; on failure the except
branch returns a failure result.  Either way the call was issued. -/
def create_record (model : String) (values : Dict) (st : OdooState) :
    OdooSyncResult × OdooState × List OdooCall :=
  if st.failCreate.contains model then
    ({ success := false
       message := some ("Failed to create record in " ++ model) },
     st, [OdooCall.createR model values])
  else
    ({ success := true
       record_id := some st.nextId
       message := some ("Record created successfully in " ++ model) },
     { st with
         nextId := st.nextId + 1
         recs := st.recs ++ [{ model := model, rid := st.nextId, values := values }] },
     [OdooCall.createR model values])

/-- Merge written values into a record's fields (`write` semantics). -/
def dictMerge (old upd : Dict) : Dict :=
  List.filter (fun p => (Dict.get? upd p.1).isNone) old ++ upd

/-- `update_record`: `execute_kw(model, 'write', [[record_id], values])`. -/
def update_record (model : String) (rid : Nat) (values : Dict) (st : OdooState) :
    OdooSyncResult × OdooState × List OdooCall :=
  ({ success := true
     record_id := some rid
     message := some ("Record " ++ toString rid ++ " updated successfully in " ++ model) },
   { st with recs := st.recs.map (fun r =>
       if r.model == model && r.rid == rid then { r with values := dictMerge r.values values } else r) },
   [OdooCall.updateR model rid values])

/-- `delete_record`: `execute_kw(model, 'unlink', [[record_id]])`. -/
def delete_record (model : String) (rid : Nat) (st : OdooState) :
    OdooSyncResult × OdooState × List OdooCall :=
  ({ success := true
     record_id := some rid
     message := some ("Record " ++ toString rid ++ " deleted successfully from " ++ model) },
   { st with recs := st.recs.filter (fun r => !(r.model == model && r.rid == rid)) },
   [OdooCall.deleteR model rid])

/-- `search_records` with a single-field equality domain, default order. -/
def search_records (model field : String) (v : PVal) (limit : Nat) (st : OdooState) :
    List Nat :=
  ((st.recs.filter (fun r => r.model == model && Dict.get? r.values field == some v)).take limit).map
    (fun r => r.rid)

/-- The Odoo-computed `complete_name` of an `ir.model.data` row:
`module ++ "." ++ name` (the same convention `set_external_id` encodes by
splitting an external id at the first dot). -/
def completeName (r : ORec) : Option String :=
  match Dict.get? r.values "module", Dict.get? r.values "name" with
  | some (PVal.str m), some (PVal.str n) => some (m ++ "." ++ n)
  | _, _ => none

/-- OdooRecord dataclass as returned by `find_by_external_id`. -/
structure OdooRecord where
  model : String
  record_id : Option Nat := none
  external_id : Option String := none
deriving DecidableEq, Repr

/-- `find_by_external_id`: `search_read('ir.model.data',
[('complete_name','=',x)], fields=['model','res_id'], limit=1)` and wrap the
first hit. -/
def find_by_external_id (x : String) (st : OdooState) : Option OdooRecord :=
  match st.recs.find? (fun r => r.model == "ir.model.data" && completeName r == some x) with
  | some r =>
      some { model := (match Dict.get? r.values "model" with
                       | some (PVal.str m) => m
                       | _ => "")
             record_id := (match Dict.get? r.values "res_id" with
                           | some (PVal.num n) => some n.toNat
                           | _ => none)
             external_id := some x }
  | none => none

/-- Break a character list at the first dot: the characters before it and
the characters after it, or `none` when there is no dot. -/
def breakAtDot : List Char → Option (List Char × List Char)
  | [] => none
  | c :: cs =>
      if c = '.' then some ([], cs)
      else
        match breakAtDot cs with
        | some pp => some (c :: pp.1, pp.2)
        | none => none

/-- `external_id.split('.', 1)` when the id contains a dot, else the
`('__import__', external_id)` fallback. -/
def splitExternalId (x : String) : String × String :=
  match breakAtDot x.data with
  | some pp => (String.mk pp.1, String.mk pp.2)
  | none => ("__import__", x)

/-- `set_external_id`: create an `ir.model.data` row holding the mapping;
returns the create's success flag.  No duplicate check is performed. -/
def set_external_id (model : String) (rid : Nat) (x : String) (st : OdooState) :
    Bool × OdooState × List OdooCall :=
  let mn := splitExternalId x
  let out := create_record "ir.model.data"
    [("name", PVal.str mn.2), ("module", PVal.str mn.1), ("model", PVal.str model),
     ("res_id", PVal.num rid), ("noupdate", PVal.boolv true)] st
  (out.1.success, out.2.1, out.2.2)

/-! ## Dispatch / mapping service (integration_service.py) -/

/-- `entity_model_mapping` dict; `.get` lookup. -/
def entity_model_mapping : List (EntityType × String) :=
  [(EntityType.product, "product.template"),
   (EntityType.user, "res.users"),
   (EntityType.store, "res.company"),
   (EntityType.invoice, "account.move"),
   (EntityType.shift, "hr.attendance"),
   (EntityType.zetaReport, "account.report")]

/-- `self.entity_model_mapping.get(event.entity_type)`. -/
def entityModel (t : EntityType) : Option String :=
  (List.find? (fun p => p.1 == t) entity_model_mapping).map (fun p => p.2)

/-- Python `float(v)`: succeeds on numbers and booleans, parses strings
(approximated by integer parsing), raises otherwise. -/
def pyFloat : PVal → Option Int
  | PVal.num n => some n
  | PVal.boolv b => some (if b then 1 else 0)
  | PVal.str s => s.toInt?

/-- Python `str(v)` as used inside the correlation-key f-string. -/
def pvalStr : PVal → String
  | PVal.str s => s
  | PVal.num n => toString n
  | PVal.boolv b => if b then "True" else "False"

/-- `if src in data: mapped[tgt] = data[src]`. -/
def addPresent (data : Dict) (src tgt : String) (m : Dict) : Dict :=
  match Dict.get? data src with
  | some v => m ++ [(tgt, v)]
  | none => m

/-- `if src in data: mapped[tgt] = float(data[src])`; a non-coercible value
raises (propagated as an `Except.error`). -/
def floatField (data : Dict) (src tgt : String) (m : Dict) : Except String Dict :=
  match Dict.get? data src with
  | none => Except.ok m
  | some v =>
      match pyFloat v with
      | some f => Except.ok (m ++ [(tgt, PVal.num f)])
      | none => Except.error ("could not convert to float: " ++ pvalStr v)

/-- `_find_or_create_category`: search `product.category` by name (limit 1);
if absent, create it; on a failed create fall back to category id 1. -/
def find_or_create_category (v : PVal) (st : OdooState) :
    Nat × OdooState × List OdooCall :=
  match search_records "product.category" "name" v 1 st with
  | cid :: _ => (cid, st, [])
  | [] =>
      let out := create_record "product.category" [("name", v)] st
      ((if out.1.success then out.1.record_id.getD 1 else 1), out.2.1, out.2.2)

/-- `_map_product_values`: project present fields in source order; `price`
and `cost` pass through `float`; `category` triggers the lookup-or-create. -/
def map_product_values (data : Dict) (st : OdooState) :
    Except String Dict × OdooState × List OdooCall :=
  let m1 := addPresent data "description" "description" (addPresent data "name" "name" [])
  match floatField data "price" "list_price" m1 with
  | Except.error e => (Except.error e, st, [])
  | Except.ok m2 =>
    match floatField data "cost" "standard_price" m2 with
    | Except.error e => (Except.error e, st, [])
    | Except.ok m3 =>
      let m4 := addPresent data "barcode" "barcode" m3
      match Dict.get? data "category" with
      | some v =>
          let out := find_or_create_category v st
          let m5 := m4 ++ [("categ_id", PVal.num (Int.ofNat out.1))]
          (Except.ok (addPresent data "active" "active" m5), out.2.1, out.2.2)
      | none => (Except.ok (addPresent data "active" "active" m4), st, [])

/-- `_map_user_values` (pure). -/
def map_user_values (data : Dict) : Dict :=
  let m1 := addPresent data "name" "name" []
  let m2 := match Dict.get? data "email" with
            | some v => m1 ++ [("login", v), ("email", v)]
            | none => m1
  addPresent data "active" "active" (addPresent data "phone" "phone" m2)

/-- `_map_store_values` (pure). -/
def map_store_values (data : Dict) : Dict :=
  addPresent data "email" "email"
    (addPresent data "phone" "phone"
      (addPresent data "address" "street"
        (addPresent data "name" "name" [])))

/-- `_map_invoice_values`: `amount_total` passes through `float`. -/
def map_invoice_values (data : Dict) : Except String Dict :=
  let m1 := addPresent data "partner_id" "partner_id" []
  match floatField data "amount_total" "amount_total" m1 with
  | Except.error e => Except.error e
  | Except.ok m2 =>
      Except.ok (addPresent data "reference" "ref" (addPresent data "date" "invoice_date" m2))

/-- `_map_values_to_odoo`: per entity kind; unknown kinds pass data through. -/
def map_values_to_odoo (data : Dict) (t : EntityType) (st : OdooState) :
    Except String Dict × OdooState × List OdooCall :=
  match t with
  | EntityType.product => map_product_values data st
  | EntityType.user => (Except.ok (map_user_values data), st, [])
  | EntityType.store => (Except.ok (map_store_values data), st, [])
  | EntityType.invoice => (map_invoice_values data, st, [])
  | _ => (Except.ok data, st, [])

/-- `.value` of an EntityType (used in messages). -/
def EntityType.val : EntityType → String
  | EntityType.product => "Product"
  | EntityType.user => "User"
  | EntityType.store => "Store"
  | EntityType.invoice => "Invoice"
  | EntityType.shift => "Shift"
  | EntityType.zetaReport => "ZetaReport"

/-- The correlation-key f-string
`f"{erp_name}_{instance_id}_{idPart}"`. -/
def correlationKey (ss : SourceSystem) (idPart : String) : String :=
  ss.erp_name ++ "_" ++ ss.instance_id ++ "_" ++ idPart

/-- `data.get('id', default)` rendered inside the f-string; an absent key
yields the default (Python renders `None` as the string "None"). -/
def keyPartOrDefault (data : Dict) (dflt : String) : String :=
  match Dict.get? data "id" with
  | some v => pvalStr v
  | none => dflt

/-- `_handle_create_event`: map, create, and on a truthy created id register
the correlation key (`data.get('id', event.event_id)`).  Reading
`event.source_system.erp_name` on a missing source system raises. -/
def handle_create_event (model : String) (data : Dict) (e : IntegrationEvent)
    (st : OdooState) : Except String OdooSyncResult × OdooState × List OdooCall :=
  match map_values_to_odoo data e.entity_type st with
  | (Except.error msg, st1, tr1) => (Except.error msg, st1, tr1)
  | (Except.ok m, st1, tr1) =>
    let out := create_record model m st1
    if out.1.success && out.1.record_id.getD 0 != 0 then
      match e.source_system with
      | none =>
          (Except.error "AttributeError: NoneType object has no attribute erp_name",
           out.2.1, tr1 ++ out.2.2)
      | some ss =>
        let key := correlationKey ss (keyPartOrDefault data e.event_id)
        let reg := set_external_id model (out.1.record_id.getD 0) key out.2.1
        (Except.ok out.1, reg.2.1, tr1 ++ out.2.2 ++ reg.2.2)
    else
      (Except.ok out.1, out.2.1, tr1 ++ out.2.2)

/-- `_handle_update_event`: resolve the correlation key; a falsy hit fails
with "Record not found with external_id: ..."; otherwise map and write. -/
def handle_update_event (model : String) (data : Dict) (e : IntegrationEvent)
    (st : OdooState) : Except String OdooSyncResult × OdooState × List OdooCall :=
  match e.source_system with
  | none =>
      (Except.error "AttributeError: NoneType object has no attribute erp_name", st, [])
  | some ss =>
    let key := correlationKey ss (keyPartOrDefault data "None")
    let miss : Except String OdooSyncResult × OdooState × List OdooCall :=
      (Except.ok { success := false
                   message := some ("Record not found with external_id: " ++ key) },
       st, [])
    match find_by_external_id key st with
    | none => miss
    | some rec =>
      if rec.record_id.getD 0 == 0 then miss
      else
        match map_values_to_odoo data e.entity_type st with
        | (Except.error msg, st1, tr1) => (Except.error msg, st1, tr1)
        | (Except.ok m, st1, tr1) =>
          let out := update_record model (rec.record_id.getD 0) m st1
          (Except.ok out.1, out.2.1, tr1 ++ out.2.2)

/-- `_handle_delete_event`: resolve the correlation key; a falsy hit fails
with "Record not found with external_id: ..."; otherwise unlink. -/
def handle_delete_event (model : String) (data : Dict) (e : IntegrationEvent)
    (st : OdooState) : Except String OdooSyncResult × OdooState × List OdooCall :=
  match e.source_system with
  | none =>
      (Except.error "AttributeError: NoneType object has no attribute erp_name", st, [])
  | some ss =>
    let key := correlationKey ss (keyPartOrDefault data "None")
    let miss : Except String OdooSyncResult × OdooState × List OdooCall :=
      (Except.ok { success := false
                   message := some ("Record not found with external_id: " ++ key) },
       st, [])
    match find_by_external_id key st with
    | none => miss
    | some rec =>
      if rec.record_id.getD 0 == 0 then miss
      else
        let out := delete_record model (rec.record_id.getD 0) st
        (Except.ok out.1, out.2.1, out.2.2)

/-- `_handle_sync_event`: resolve, map, then update the hit or create and
(on a truthy created id) register the key. -/
def handle_sync_event (model : String) (data : Dict) (e : IntegrationEvent)
    (st : OdooState) : Except String OdooSyncResult × OdooState × List OdooCall :=
  match e.source_system with
  | none =>
      (Except.error "AttributeError: NoneType object has no attribute erp_name", st, [])
  | some ss =>
    let key := correlationKey ss (keyPartOrDefault data "None")
    let found := find_by_external_id key st
    match map_values_to_odoo data e.entity_type st with
    | (Except.error msg, st1, tr1) => (Except.error msg, st1, tr1)
    | (Except.ok m, st1, tr1) =>
      let doCreate : Except String OdooSyncResult × OdooState × List OdooCall :=
        let out := create_record model m st1
        if out.1.success && out.1.record_id.getD 0 != 0 then
          let reg := set_external_id model (out.1.record_id.getD 0) key out.2.1
          (Except.ok out.1, reg.2.1, tr1 ++ out.2.2 ++ reg.2.2)
        else
          (Except.ok out.1, out.2.1, tr1 ++ out.2.2)
      match found with
      | some rec =>
        if rec.record_id.getD 0 == 0 then doCreate
        else
          let out := update_record model (rec.record_id.getD 0) m st1
          (Except.ok out.1, out.2.1, tr1 ++ out.2.2)
      | none => doCreate

/-- `_handle_event_by_type`: look up the target model, extract
`event.payload.data if event.payload else {}` (a present payload whose
`data` is None raises at its first use inside the handler), then branch on
the event type. -/
def handle_event_by_type (e : IntegrationEvent) (st : OdooState) :
    Except String OdooSyncResult × OdooState × List OdooCall :=
  match entityModel e.entity_type with
  | none =>
      (Except.ok { success := false
                   message := some ("Unsupported entity type: " ++ e.entity_type.val) },
       st, [])
  | some model =>
    let pd : Option Dict :=
      match e.payload with
      | none => some []
      | some p => p.data
    match pd with
    | none => (Except.error "TypeError: argument of type NoneType is not iterable", st, [])
    | some data =>
      match e.event_type with
      | EventType.create => handle_create_event model data e st
      | EventType.update => handle_update_event model data e st
      | EventType.delete => handle_delete_event model data e st
      | EventType.sync => handle_sync_event model data e st

/-- Combined system state: event store plus Odoo server. -/
structure Sys where
  db : List Row
  odoo : OdooState
deriving DecidableEq, Repr

/-- `process_integration_event`: save the envelope (status 'pending'),
dispatch, then mark processed or failed; an exception from dispatch is
caught, marked failed, and converted to a failure result.  The connector is
modelled as connected, so the `is_connected`/`connect` step is a no-op. -/
def process_integration_event (e : IntegrationEvent) (now : Nat) (s : Sys) :
    OdooSyncResult × Sys × List OdooCall :=
  let db1 := (save_event e now s.db).2
  match handle_event_by_type e s.odoo with
  | (Except.ok r, st1, tr) =>
      if r.success then
        (r, { db := (mark_event_as_processed e.event_id now db1).2, odoo := st1 }, tr)
      else
        (r, { db := (mark_event_as_failed e.event_id (r.message.getD "Unknown error") now db1).2,
              odoo := st1 }, tr)
  | (Except.error msg, st1, tr) =>
      let emsg := "Error processing event " ++ e.event_id ++ ": " ++ msg
      ({ success := false, message := some emsg },
       { db := (mark_event_as_failed e.event_id emsg now db1).2, odoo := st1 }, tr)

/-! ## Retry sweep (sync_handler.py) -/

/-- The counters accumulated by `handle_retry_failed_events`. -/
structure RetryResults where
  total : Nat := 0
  success : Nat := 0
  failed : Nat := 0
  skipped : Nat := 0
deriving DecidableEq, Repr

/-- `if event.context: event.context.retry_count += 1` — the increment is
guarded on the context being present. -/
def bumpRetry (e : IntegrationEvent) : IntegrationEvent :=
  match e.context with
  | some c => { e with context := some { c with retry_count := c.retry_count + 1 } }
  | none => e

/-- One iteration of the retry loop body: read
`event.context.retry_count if event.context else 0`; skip when it has
reached `max_retries`, else bump (context permitting) and re-dispatch. -/
def retryStep (maxR now : Nat) (acc : RetryResults × Sys) (e : IntegrationEvent) :
    RetryResults × Sys :=
  let rc := (e.context.map (fun c => c.retry_count)).getD 0
  if maxR ≤ rc then
    ({ acc.1 with skipped := acc.1.skipped + 1 }, acc.2)
  else
    let out := process_integration_event (bumpRetry e) now acc.2
    if out.1.success then ({ acc.1 with success := acc.1.success + 1 }, out.2.1)
    else ({ acc.1 with failed := acc.1.failed + 1 }, out.2.1)

/-- The retry loop over a given list of failed events. -/
def retrySweepList (events : List IntegrationEvent) (maxR now : Nat) (s : Sys) :
    RetryResults × Sys :=
  events.foldl (retryStep maxR now) ({ total := events.length }, s)

/-- `handle_retry_failed_events`: page of failed events (limit 100), then the
retry loop. -/
def handle_retry_failed_events (maxR now : Nat) (s : Sys) : RetryResults × Sys :=
  retrySweepList (get_failed_events s.db 100) maxR now s

/-! ## Concrete scenario inputs (spec §8 example scenarios) -/

/-- Example source system of the spec scenarios. -/
def ssA : SourceSystem := { erp_name := "erpA", instance_id := "inst1" }

/-- Scenario 1: Create event for product P1. -/
def evCreateP1 : IntegrationEvent :=
  { event_type := EventType.create, entity_type := EntityType.product,
    event_id := "e1", timestamp := 1, source_system := some ssA,
    payload := some { data := some [("id", PVal.str "P1"), ("name", PVal.str "Widget")] } }

/-- Scenario 2/3: Update event for product P1. -/
def evUpdateP1 : IntegrationEvent :=
  { event_type := EventType.update, entity_type := EntityType.product,
    event_id := "e2", timestamp := 2, source_system := some ssA,
    payload := some { data := some [("id", PVal.str "P1"), ("price", PVal.num 12)] } }

/-- A Sync event for product P1. -/
def evSyncP1 : IntegrationEvent :=
  { event_type := EventType.sync, entity_type := EntityType.product,
    event_id := "e8", timestamp := 4, source_system := some ssA,
    payload := some { data := some [("id", PVal.str "P1")] } }

/-- A Create event whose payload is the empty dict (missing every field a
validation layer would require). -/
def evEmptyP : IntegrationEvent :=
  { event_type := EventType.create, entity_type := EntityType.product,
    event_id := "e4", timestamp := 3, source_system := some ssA,
    payload := some { data := some [] } }

/-- Empty system state. -/
def sysEmpty : Sys := { db := [], odoo := {} }

/-- A stored failed event that carries no context (retry_count defaults to 0
when read by the retry sweep). -/
def rowC3 : Row :=
  { event_id := "e2", event_type := EventType.update, entity_type := EntityType.product,
    timestamp := 2, source_system := some ssA,
    payload := some { data := some [("id", PVal.str "P1")] }, context := none,
    status := "failed", error_message := some "boom", created_at := 2, updated_at := 2 }

/-- System holding exactly the context-less failed event. -/
def sysC3 : Sys := { db := [rowC3], odoo := {} }

/-- Odoo state in which the key `erpA_inst1_P1` has already been registered
for record 5. -/
def stC5 : OdooState :=
  (set_external_id "product.template" 5 "erpA_inst1_P1" {}).2.1

/-- Odoo state in which the dotted key `mod.key1` has been registered for
record 5 (dotted keys are the ones `find_by_external_id` can see again). -/
def stC5dot : OdooState :=
  (set_external_id "product.template" 5 "mod.key1" {}).2.1

/-- Two envelopes sharing the same `event_id` with different contents. -/
def evC6a : IntegrationEvent :=
  { event_type := EventType.create, entity_type := EntityType.product,
    event_id := "x1", timestamp := 10, source_system := some ssA,
    payload := some { data := some [("id", PVal.str "P7")] } }

/-- Second envelope with the same `event_id` as `evC6a`. -/
def evC6b : IntegrationEvent :=
  { event_type := EventType.sync, entity_type := EntityType.user,
    event_id := "x1", timestamp := 11, source_system := none,
    payload := none, context := some { retry_count := 2 } }

/-- An old processed row (cleanup-eligible). -/
def rowProcessedOld : Row :=
  { event_id := "p1", event_type := EventType.sync, entity_type := EntityType.product,
    timestamp := 1, source_system := none, payload := none, context := none,
    status := "processed", error_message := none, created_at := 1, updated_at := 1 }

/-- An equally old failed row (never cleanup-eligible). -/
def rowFailedOld : Row :=
  { event_id := "f1", event_type := EventType.update, entity_type := EntityType.product,
    timestamp := 1, source_system := none, payload := none, context := none,
    status := "failed", error_message := some "boom", created_at := 1, updated_at := 1 }

/-- Store holding one old processed and one old failed row. -/
def dbC9 : List Row := [rowProcessedOld, rowFailedOld]

/-- A stored row for `evC6a`'s event id that has already been processed and
carries an old error message. -/
def rowC10 : Row :=
  { event_id := "x1", event_type := EventType.create, entity_type := EntityType.product,
    timestamp := 10, source_system := some ssA, payload := none, context := none,
    status := "processed", error_message := some "old error", created_at := 3, updated_at := 5 }

/-! ## Claim theorems -/

/-- C1 [code_bug]: `mark_event_as_failed` binds four parameters to a
three-placeholder UPDATE, so sqlite raises, the except branch returns False
and no row is touched — for every input the store is unchanged.
Consequently, after `process_integration_event` returns an unsuccessful
result (here: an Update whose correlation key is unknown), the stored row is
still `'pending'` with no error message, not `'failed'` as the claim
states. -/
theorem c1_mark_failed_never_updates :
    (∀ eid msg now db, mark_event_as_failed eid msg now db = (false, db)) ∧
    (process_integration_event evUpdateP1 2 sysEmpty).1.success = false ∧
    ((process_integration_event evUpdateP1 2 sysEmpty).2.1.db.map
      (fun r => (r.event_id, r.status, r.error_message))) =
      [("e2", "pending", (none : Option String))] := by
  refine ⟨fun eid msg now db => ?_, rfl, rfl⟩
  simp [mark_event_as_failed, markFailedSqlParams, markFailedSqlPlaceholders]

/-- C2 [code_bug]: scenario 1 then scenario 2 of the spec.  The Create
dispatch succeeds and registers the key `erpA_inst1_P1`, but
`set_external_id` stores it under module `__import__` (complete name
`__import__.erpA_inst1_P1`), while `find_by_external_id` looks the bare key
up by complete name — so resolution misses and the subsequent Update for the
same source record fails with "Record not found", instead of acting on the
created record. -/
theorem c2_registered_key_does_not_resolve :
    (process_integration_event evCreateP1 1 sysEmpty).1 =
      { success := true, record_id := some 1,
        message := some "Record created successfully in product.template" } ∧
    find_by_external_id "erpA_inst1_P1"
      (process_integration_event evCreateP1 1 sysEmpty).2.1.odoo = none ∧
    (process_integration_event evUpdateP1 2
      (process_integration_event evCreateP1 1 sysEmpty).2.1).1 =
      { success := false, record_id := none,
        message := some "Record not found with external_id: erpA_inst1_P1" } := by
  refine ⟨by decide, by decide, by decide⟩

/-- C4 counterexample: a Product Create whose payload is empty (it would
fail any required-field validation — the spec's product scenarios require at
least a name) is nevertheless dispatched to the Target Connector: a
CreateRecord call with the empty mapped value set is issued, followed by the
correlation registration, and the returned result is the connector's own
success — no distinct validation failure, no withheld connector call. -/
theorem c4_unvalidated_payload_is_dispatched :
    (process_integration_event evEmptyP 3 sysEmpty).2.2 =
      [OdooCall.createR "product.template" [],
       OdooCall.createR "ir.model.data"
         [("name", PVal.str "erpA_inst1_e4"), ("module", PVal.str "__import__"),
          ("model", PVal.str "product.template"), ("res_id", PVal.num 1),
          ("noupdate", PVal.boolv true)]] ∧
    (process_integration_event evEmptyP 3 sysEmpty).1.success = true := by
  refine ⟨by decide, by decide⟩

/-- C5 counterexample: with `erpA_inst1_P1` already registered for record 5,
a second `set_external_id` registering it for record 7 is not detected as a
conflict: it returns True and the state now holds two `ir.model.data`
mapping rows for the same key. -/
theorem c5_second_registration_not_rejected :
    (set_external_id "product.template" 7 "erpA_inst1_P1" stC5).1 = true ∧
    ((set_external_id "product.template" 7 "erpA_inst1_P1" stC5).2.1.recs.filter
      (fun r => r.model == "ir.model.data")).length = 2 := by
  refine ⟨by decide, by decide⟩

/-- Helper: a filter and its complement partition a list's length. -/
theorem length_filter_partition {α : Type} (p : α → Bool) (l : List α) :
    (l.filter p).length + (l.filter (fun a => !(p a))).length = l.length := by
  induction l with
  | nil => rfl
  | cons a t ih => cases h : p a <;> simp [List.filter_cons, h] <;> omega

/-- C6 [confirmed]: `save_event` is an idempotent upsert keyed by `event_id`:
after saving `e1` and then `e2` with the same event id, the store holds
exactly one row for that id, and it is the full row written by the second
save (status reset to pending, fresh created_at/updated_at). -/
theorem c6_save_is_idempotent_upsert (e1 e2 : IntegrationEvent) (now1 now2 : Nat)
    (db : List Row) (h : e1.event_id = e2.event_id) :
    ((save_event e2 now2 (save_event e1 now1 db).2).2).filter
      (fun r => r.event_id == e1.event_id) = [eventRow e2 now2] := by
  simp [save_event, eventRow, List.filter_append, List.filter_filter, h,
    Bool.and_not_self, Bool.and_self]

/-- Witness for C6 at two concrete envelopes sharing event id `x1`. -/
theorem c6_save_is_idempotent_upsert_witness :
    ((save_event evC6b 11 (save_event evC6a 10 []).2).2).filter
      (fun r => r.event_id == evC6a.event_id) = [eventRow evC6b 11] :=
  c6_save_is_idempotent_upsert evC6a evC6b 10 11 [] rfl

/-- C9 [confirmed]: `cleanup_old_events` returns exactly the number of rows
that are `'processed'` with timestamp before the cutoff, and a row survives
the cleanup exactly when it was in the store and is not an old processed
row — in particular `'pending'` and `'failed'` rows are untouched regardless
of age. -/
theorem c9_cleanup_deletes_exactly_old_processed (cutoff : Nat) (db : List Row) :
    (cleanup_old_events cutoff db).1 = (db.filter (oldProcessed cutoff)).length ∧
    ∀ r, r ∈ (cleanup_old_events cutoff db).2 ↔
      r ∈ db ∧ ¬(r.timestamp < cutoff ∧ r.status = "processed") := by
  constructor
  · have hp := length_filter_partition (oldProcessed cutoff) db
    have hle := List.length_filter_le (oldProcessed cutoff) db
    simp only [cleanup_old_events]
    omega
  · intro r
    have hb : (!(oldProcessed cutoff r)) = true ↔
        ¬(r.timestamp < cutoff ∧ r.status = "processed") := by
      by_cases h1 : r.timestamp < cutoff <;> by_cases h2 : r.status = "processed" <;>
        simp [oldProcessed, h1, h2]
    simp only [cleanup_old_events, List.mem_filter]
    exact and_congr_right fun _ => hb

/-- Witness for C9 on a store with one old processed and one old failed
row: one row is counted deleted and the failed row survives. -/
theorem c9_cleanup_deletes_exactly_old_processed_witness :
    (cleanup_old_events 5 dbC9).1 = (dbC9.filter (oldProcessed 5)).length ∧
    (rowFailedOld ∈ (cleanup_old_events 5 dbC9).2 ↔
      rowFailedOld ∈ dbC9 ∧
        ¬(rowFailedOld.timestamp < 5 ∧ rowFailedOld.status = "processed")) :=
  ⟨(c9_cleanup_deletes_exactly_old_processed 5 dbC9).1,
   (c9_cleanup_deletes_exactly_old_processed 5 dbC9).2 rowFailedOld⟩

/-- C10 [confirmed]: any row stored under the saved envelope's event id
after `save_event` is exactly the freshly written pending row — its status
is `'pending'` and its error message NULL, whatever the replaced row held.
`process_integration_event` (and hence every re-dispatch, including the
retry sweep's) invokes `save_event` on the envelope before dispatching. -/
theorem c10_save_resets_status_and_error (e : IntegrationEvent) (now : Nat)
    (db : List Row) (r : Row) (hr : r ∈ (save_event e now db).2)
    (hid : r.event_id = e.event_id) :
    r = eventRow e now ∧ r.status = "pending" ∧ r.error_message = none := by
  rcases List.mem_append.1 hr with hl | hr1
  · exact absurd hid (by simpa using (List.mem_filter.1 hl).2)
  · have : r = eventRow e now := by simpa using hr1
    subst this
    exact ⟨rfl, rfl, rfl⟩

/-- Witness for C10: re-saving over a processed row with an old error
message yields the reset pending row. -/
theorem c10_save_resets_status_and_error_witness :
    eventRow evC6a 9 = eventRow evC6a 9 ∧
    (eventRow evC6a 9).status = "pending" ∧
    (eventRow evC6a 9).error_message = none :=
  c10_save_resets_status_and_error evC6a 9 [rowC10] (eventRow evC6a 9)
    (by decide) rfl

/-- Helper: a `create_record` on a model the connector rejects. -/
theorem create_record_fail (model : String) (v : Dict) (st : OdooState)
    (hc : st.failCreate.contains model = true) :
    create_record model v st =
      ({ success := false, message := some ("Failed to create record in " ++ model) },
       st, [OdooCall.createR model v]) := by
  unfold create_record; rw [hc]; rfl

/-- Helper: a `create_record` the connector accepts. -/
theorem create_record_ok (model : String) (v : Dict) (st : OdooState)
    (hc : st.failCreate.contains model = false) :
    create_record model v st =
      ({ success := true, record_id := some st.nextId,
         message := some ("Record created successfully in " ++ model) },
       { st with nextId := st.nextId + 1,
                 recs := st.recs ++ [{ model := model, rid := st.nextId, values := v }] },
       [OdooCall.createR model v]) := by
  unfold create_record; rw [hc]; rfl

/-- C3 [code_bug]: a failed event that carries no context is re-dispatched
by the retry sweep for every `max_retries ≥ 1` — it is never counted as
skipped — and after the sweep its stored context is still absent, i.e. its
retry count was not incremented; so every further sweep finding it failed
re-dispatches it again, without bound. -/
theorem c3_contextless_event_retries_without_bound (k : Nat) :
    (handle_retry_failed_events (k + 1) 7 sysC3).1 =
      { total := 1, success := 0, failed := 1, skipped := 0 } ∧
    ((handle_retry_failed_events (k + 1) 7 sysC3).2.db.map
      (fun r => (r.event_id, r.status, r.context))) =
      [("e2", "pending", (none : Option Context))] := by
  have h1 : handle_retry_failed_events (k + 1) 7 sysC3
      = retryStep (k + 1) 7 ({ total := 1 }, sysC3) (rowToEvent rowC3) := rfl
  rw [h1]
  simp only [retryStep]
  rw [show ((rowToEvent rowC3).context.map fun c => c.retry_count).getD 0 = 0 from rfl]
  rw [if_neg (Nat.not_succ_le_zero k)]
  exact ⟨by decide, by decide⟩

/-- C4 amended [corrected]: the mapping layer performs no validation gate:
whenever mapping a payload succeeds — and it succeeds for arbitrarily
incomplete payloads, since it merely projects the fields that are present —
the Create handler issues the CreateRecord call to the connector with the
mapped values.  There is no validation-failure outcome standing between the
payload and the connector. -/
theorem c4_mapping_success_always_reaches_connector (model : String) (data : Dict)
    (e : IntegrationEvent) (st st1 : OdooState) (m : Dict) (tr : List OdooCall)
    (hmap : map_values_to_odoo data e.entity_type st = (Except.ok m, st1, tr)) :
    OdooCall.createR model m ∈ (handle_create_event model data e st).2.2 := by
  simp only [handle_create_event, hmap]
  cases hc : st1.failCreate.contains model with
  | true => rw [create_record_fail model m st1 hc]; simp
  | false =>
      rw [create_record_ok model m st1 hc]
      by_cases h0 : st1.nextId = 0
      · simp [h0]
      · cases hss : e.source_system with
        | none => simp [h0]
        | some ss => simp [h0]

/-- Witness for the C4 amended theorem at the empty product payload. -/
theorem c4_mapping_success_always_reaches_connector_witness :
    OdooCall.createR "product.template" [] ∈
      (handle_create_event "product.template" [] evEmptyP {}).2.2 :=
  c4_mapping_success_always_reaches_connector "product.template" [] evEmptyP {} {} [] [] rfl

/-- C5 amended [corrected]: `set_external_id` performs no duplicate
detection — registering a key that already resolves simply succeeds
(whenever the connector accepts the create) and appends another mapping
row; but because `find_by_external_id` returns the first matching row in
creation order and registration only appends, the key still resolves to the
originally registered record: a registered key is never reassigned. -/
theorem c5_reregistration_undetected_but_resolution_stable (st : OdooState)
    (k model : String) (rid : Nat) (r0 : OdooRecord)
    (h : find_by_external_id k st = some r0) :
    (st.failCreate.contains "ir.model.data" = false →
      (set_external_id model rid k st).1 = true) ∧
    find_by_external_id k ((set_external_id model rid k st).2.1) = some r0 := by
  constructor
  · intro hc
    simp only [set_external_id]
    rw [create_record_ok _ _ _ hc]
  · simp only [set_external_id]
    cases hc : st.failCreate.contains "ir.model.data" with
    | true => rw [create_record_fail _ _ _ hc]; exact h
    | false =>
        rw [create_record_ok _ _ _ hc]
        simp only [find_by_external_id] at h ⊢
        cases hf : st.recs.find?
            (fun r => r.model == "ir.model.data" && completeName r == some k) with
        | none => rw [hf] at h; exact absurd h (by simp)
        | some r =>
            rw [hf] at h
            rw [List.find?_append, hf]
            exact h

/-- Witness for the C5 amended theorem: with the dotted key `mod.key1`
registered for record 5, re-registering it for record 9 succeeds yet the key
still resolves to record 5. -/
theorem c5_reregistration_undetected_but_resolution_stable_witness :
    (set_external_id "product.template" 9 "mod.key1" stC5dot).1 = true ∧
    find_by_external_id "mod.key1" ((set_external_id "product.template" 9 "mod.key1" stC5dot).2.1) =
      some { model := "product.template", record_id := some 5,
             external_id := some "mod.key1" } :=
  ⟨(c5_reregistration_undetected_but_resolution_stable stC5dot "mod.key1" "product.template" 9
      { model := "product.template", record_id := some 5, external_id := some "mod.key1" }
      (by decide)).1 rfl,
   (c5_reregistration_undetected_but_resolution_stable stC5dot "mod.key1" "product.template" 9
      { model := "product.template", record_id := some 5, external_id := some "mod.key1" }
      (by decide)).2⟩

/-- C7 [confirmed]: when the correlation key of an Update or Delete event
does not resolve, both handlers return `success := false` with the message
"Record not found with external_id: key" — which contains "not found" — and
neither touches the connector or its state: no UpdateRecord or DeleteRecord
call is issued (the returned trace is empty and the state unchanged). -/
theorem c7_update_delete_miss_fails_without_connector_call (model : String)
    (data : Dict) (e : IntegrationEvent) (ss : SourceSystem) (st : OdooState)
    (hss : e.source_system = some ss)
    (hmiss : find_by_external_id (correlationKey ss (keyPartOrDefault data "None")) st = none) :
    handle_update_event model data e st =
      (Except.ok { success := false
                   message := some ("Record not found with external_id: " ++
                     correlationKey ss (keyPartOrDefault data "None")) }, st, []) ∧
    handle_delete_event model data e st =
      (Except.ok { success := false
                   message := some ("Record not found with external_id: " ++
                     correlationKey ss (keyPartOrDefault data "None")) }, st, []) ∧
    ∃ pre post, ("Record not found with external_id: " ++
        correlationKey ss (keyPartOrDefault data "None")) = pre ++ "not found" ++ post := by
  refine ⟨?_, ?_, "Record ",
    " with external_id: " ++ correlationKey ss (keyPartOrDefault data "None"), ?_⟩
  · simp only [handle_update_event, hss, hmiss]
  · simp only [handle_delete_event, hss, hmiss]
  · have base : ("Record " ++ "not found") ++ " with external_id: "
        = "Record not found with external_id: " := by decide
    rw [← base, String.append_assoc, String.append_assoc]

/-- Witness for C7: Update for the unknown source id P999 (spec scenario 3)
on an empty registry. -/
theorem c7_update_delete_miss_fails_without_connector_call_witness :
    handle_update_event "product.template" [("id", PVal.str "P999")] evUpdateP1 {} =
      (Except.ok { success := false
                   message := some ("Record not found with external_id: " ++
                     correlationKey ssA (keyPartOrDefault [("id", PVal.str "P999")] "None")) },
       {}, []) ∧
    handle_delete_event "product.template" [("id", PVal.str "P999")] evUpdateP1 {} =
      (Except.ok { success := false
                   message := some ("Record not found with external_id: " ++
                     correlationKey ssA (keyPartOrDefault [("id", PVal.str "P999")] "None")) },
       {}, []) ∧
    ∃ pre post, ("Record not found with external_id: " ++
        correlationKey ssA (keyPartOrDefault [("id", PVal.str "P999")] "None")) =
      pre ++ "not found" ++ post :=
  c7_update_delete_miss_fails_without_connector_call "product.template"
    [("id", PVal.str "P999")] evUpdateP1 ssA {} rfl rfl

/-- C8 [confirmed]: for a Sync event whose mapping succeeds: when the
correlation key resolves to a (truthy) record id, the handler performs
exactly the UpdateRecord call on that record — no create, no new
registration appears in the trace; when the key does not resolve, the
handler issues CreateRecord and, exactly when the create succeeded with a
truthy id, follows it with the `set_external_id` registration of the key
for the new record id.  The Create handler, by contrast, creates
unconditionally (it never consults the registry), showing Sync alone has
create-or-update semantics. -/
theorem c8_sync_is_create_or_update (model : String) (data : Dict)
    (e : IntegrationEvent) (ss : SourceSystem) (st st1 : OdooState) (m : Dict)
    (tr : List OdooCall)
    (hss : e.source_system = some ss)
    (hmap : map_values_to_odoo data e.entity_type st = (Except.ok m, st1, tr)) :
    (∀ rec rid,
      find_by_external_id (correlationKey ss (keyPartOrDefault data "None")) st = some rec →
      rec.record_id = some rid → rid ≠ 0 →
      handle_sync_event model data e st =
        (Except.ok (update_record model rid m st1).1, (update_record model rid m st1).2.1,
         tr ++ [OdooCall.updateR model rid m])) ∧
    (find_by_external_id (correlationKey ss (keyPartOrDefault data "None")) st = none →
      (handle_sync_event model data e st).1 = Except.ok (create_record model m st1).1 ∧
      ((create_record model m st1).1.success = true →
        (create_record model m st1).1.record_id.getD 0 ≠ 0 →
        (handle_sync_event model data e st).2.2 =
          tr ++ [OdooCall.createR model m] ++
            (set_external_id model ((create_record model m st1).1.record_id.getD 0)
              (correlationKey ss (keyPartOrDefault data "None"))
              (create_record model m st1).2.1).2.2) ∧
      ((create_record model m st1).1.success = false →
        (handle_sync_event model data e st).2.2 = tr ++ [OdooCall.createR model m])) ∧
    OdooCall.createR model m ∈ (handle_create_event model data e st).2.2 := by
  refine ⟨?_, ?_, ?_⟩
  · intro rec rid hfind hrid hne
    simp only [handle_sync_event, hss, hfind, hmap]
    rw [if_neg (by simp [hrid, Option.getD_some, beq_iff_eq]; exact hne)]
    simp only [hrid, Option.getD_some]
    rfl
  · intro hmiss
    simp only [handle_sync_event, hss, hmiss, hmap]
    cases hc : st1.failCreate.contains model with
    | true =>
        rw [create_record_fail model m st1 hc]
        refine ⟨rfl, ?_, fun _ => rfl⟩
        intro hs
        exact absurd hs (by simp)
    | false =>
        rw [create_record_ok model m st1 hc]
        by_cases h0 : st1.nextId = 0
        · refine ⟨?_, ?_, ?_⟩
          · simp [h0]
          · intro _ hgd
            simp [h0] at hgd
          · intro hs
            exact absurd hs (by simp)
        · refine ⟨?_, ?_, ?_⟩
          · simp [h0]
          · intro _ _
            simp [h0]
          · intro hs
            exact absurd hs (by simp)
  · simp only [handle_create_event, hmap]
    cases hc : st1.failCreate.contains model with
    | true =>
        rw [create_record_fail model m st1 hc]
        simp
    | false =>
        rw [create_record_ok model m st1 hc]
        by_cases h0 : st1.nextId = 0
        · simp [h0]
        · simp [h0, hss]

/-- Witness for C8: Sync for the never-seen source id P1 on an empty
registry falls through to the create path (spec scenario 4). -/
theorem c8_sync_is_create_or_update_witness :
    (handle_sync_event "product.template" [("id", PVal.str "P1")] evSyncP1 {}).1 =
      Except.ok (create_record "product.template" [] ({} : OdooState)).1 :=
  ((c8_sync_is_create_or_update "product.template" [("id", PVal.str "P1")] evSyncP1 ssA
      {} {} [] [] rfl rfl).2.1 rfl).1
